import Mathlib

/-!
Verification of the natural-language specification of the
youtrack-workflow-api-types package (TypeScript ambient declaration files)
against its sources.

The package consists of TypeScript declaration files only.  The shallow
embedding below models, faithfully to the sources:

* the inventory of top-level declarations of every declaration file
  (kinds of declarations, and whether any declared function has a body);
* the module surface of the package entry point and the module paths the
  package declares;
* the closed set of types that occur in the conditional-type machinery of
  utils.d.ts (FieldType enum members, entity classes and their typeof
  constructor types), together with the TypeScript assignability tests the
  conditional chains perform on that closed set;
* the conditional type operators ProjectCustomFieldFromRequirement,
  FieldFromRequirement, FieldNameFromRequirement,
  ProjectCustomFieldsFromRequirements, RuleContext and ActionContext;
* the two declarations of the Requirement interface (utils.d.ts and
  entities/core.d.ts);
* behavioural models, written from the doc comments of the declaration
  files, of the externally implemented runtime entities that some claims
  quantify over (workflow.check, YTSet element access, Iterator.next).
-/

namespace YTTypes

/-- Kinds of top-level declarations occurring in the declaration files of
the package. -/
inductive DeclKind
  | importDecl
  | exportStar
  | exportImportAlias
  | interfaceDecl
  | classSignature
  | typeAlias
  | enumDecl
  | functionSignature
  | namespaceDecl
deriving DecidableEq, Repr

/-- One top-level declaration of a declaration file: its kind, the declared
name (for imports and re-exports, the module specifier), and whether the
declaration carries an implementation body.  In ambient declaration files
function and method declarations are signatures only, so hasBody is false
throughout the transcription below; the flag is part of the model because
the specification claims its absence. -/
structure TopDecl where
  kind : DeclKind
  name : String
  hasBody : Bool
deriving DecidableEq, Repr

/-- Top-level declarations of the first document of entities/agile.d.ts
(classes Agile and Sprint). -/
def agileDoc1 : List TopDecl :=
  [⟨.importDecl, "./core", false⟩, ⟨.importDecl, "./issue", false⟩,
   ⟨.importDecl, "./user", false⟩,
   ⟨.classSignature, "Agile", false⟩, ⟨.classSignature, "Sprint", false⟩]

/-- Top-level declarations of the second document of entities/agile.d.ts
(the user module: User, UserGroup, ProjectTeam). -/
def agileDoc2 : List TopDecl :=
  [⟨.importDecl, "./core", false⟩, ⟨.importDecl, "./articles", false⟩,
   ⟨.importDecl, "./project", false⟩, ⟨.importDecl, "./issue", false⟩,
   ⟨.importDecl, "./tag", false⟩,
   ⟨.interfaceDecl, "UserAttributes", false⟩,
   ⟨.classSignature, "User", false⟩, ⟨.classSignature, "UserGroup", false⟩,
   ⟨.classSignature, "ProjectTeam", false⟩]

/-- Top-level declarations of entities/articles.d.ts. -/
def articlesDoc : List TopDecl :=
  [⟨.importDecl, "./core", false⟩, ⟨.importDecl, "./user", false⟩,
   ⟨.importDecl, "./project", false⟩, ⟨.importDecl, "./issue", false⟩,
   ⟨.importDecl, "../utils", false⟩,
   ⟨.classSignature, "BaseArticleAttachment", false⟩,
   ⟨.classSignature, "BaseArticleComment", false⟩,
   ⟨.classSignature, "ArticleComment", false⟩,
   ⟨.classSignature, "ArticleAttachment", false⟩,
   ⟨.interfaceDecl, "ArticleDraft", false⟩,
   ⟨.interfaceDecl, "ArticleContext", false⟩,
   ⟨.classSignature, "BaseArticle", false⟩,
   ⟨.classSignature, "Article", false⟩]

/-- Top-level declarations of entities/core.d.ts. -/
def coreDoc : List TopDecl :=
  [⟨.importDecl, "./user", false⟩, ⟨.importDecl, "./search", false⟩,
   ⟨.importDecl, "./project", false⟩, ⟨.importDecl, "./issue", false⟩,
   ⟨.importDecl, "./tag", false⟩,
   ⟨.classSignature, "BaseEntity", false⟩,
   ⟨.classSignature, "PersistentFile", false⟩,
   ⟨.classSignature, "YTSet", false⟩,
   ⟨.interfaceDecl, "Requirement", false⟩,
   ⟨.interfaceDecl, "Requirements", false⟩,
   ⟨.interfaceDecl, "Iterator", false⟩,
   ⟨.classSignature, "Gantt", false⟩,
   ⟨.classSignature, "IssueLinkPrototype", false⟩,
   ⟨.classSignature, "AppGlobalStorage", false⟩]

/-- Top-level declarations of entities/field.d.ts. -/
def fieldDoc : List TopDecl :=
  [⟨.importDecl, "./core", false⟩, ⟨.importDecl, "./user", false⟩,
   ⟨.importDecl, "./project", false⟩, ⟨.importDecl, "./issue", false⟩,
   ⟨.classSignature, "ProjectCustomField", false⟩,
   ⟨.classSignature, "Fields", false⟩,
   ⟨.classSignature, "Field", false⟩,
   ⟨.classSignature, "EnumField", false⟩,
   ⟨.classSignature, "OwnedField", false⟩,
   ⟨.classSignature, "State", false⟩,
   ⟨.classSignature, "ProjectVersion", false⟩,
   ⟨.classSignature, "Build", false⟩,
   ⟨.classSignature, "SimpleProjectCustomField", false⟩,
   ⟨.classSignature, "UserProjectCustomField", false⟩,
   ⟨.classSignature, "TextProjectCustomField", false⟩,
   ⟨.classSignature, "PeriodProjectCustomField", false⟩,
   ⟨.classSignature, "GroupProjectCustomField", false⟩,
   ⟨.classSignature, "BundleProjectCustomField", false⟩]

/-- Top-level declarations of the first document of entities/index.d.ts
(re-exports of the entity modules). -/
def entitiesIndexDoc1 : List TopDecl :=
  [⟨.exportStar, "./workitem", false⟩, ⟨.exportStar, "./helpdesk", false⟩,
   ⟨.exportStar, "./articles", false⟩, ⟨.exportStar, "./project", false⟩,
   ⟨.exportStar, "./search", false⟩, ⟨.exportStar, "./issue", false⟩,
   ⟨.exportStar, "./agile", false⟩, ⟨.exportStar, "./field", false⟩,
   ⟨.exportStar, "./user", false⟩, ⟨.exportStar, "./core", false⟩,
   ⟨.exportStar, "./vcs", false⟩, ⟨.exportStar, "./tag", false⟩,
   ⟨.importDecl, "./core", false⟩,
   ⟨.exportImportAlias, "Set", false⟩]

/-- Top-level declarations of the second document of entities/index.d.ts
(the issue module: Issue, IssueComment, IssueAttachment and contexts). -/
def entitiesIndexDoc2 : List TopDecl :=
  [⟨.importDecl, "../utils", false⟩, ⟨.importDecl, "./core", false⟩,
   ⟨.importDecl, "./workitem", false⟩, ⟨.importDecl, "./vcs", false⟩,
   ⟨.importDecl, "./helpdesk", false⟩, ⟨.importDecl, "./user", false⟩,
   ⟨.importDecl, "./project", false⟩, ⟨.importDecl, "./field", false⟩,
   ⟨.importDecl, "./tag", false⟩,
   ⟨.classSignature, "BaseComment", false⟩,
   ⟨.interfaceDecl, "IssueAttachmentActionContext", false⟩,
   ⟨.classSignature, "IssueAttachment", false⟩,
   ⟨.classSignature, "Issue", false⟩,
   ⟨.interfaceDecl, "IssueCommentActionContext", false⟩,
   ⟨.classSignature, "IssueComment", false⟩]

/-- Top-level declarations of the first document of entities/project.d.ts. -/
def projectDoc1 : List TopDecl :=
  [⟨.importDecl, "./workitem", false⟩, ⟨.importDecl, "./field", false⟩,
   ⟨.importDecl, "./core", false⟩, ⟨.importDecl, "./vcs", false⟩,
   ⟨.importDecl, "./user", false⟩, ⟨.importDecl, "../utils", false⟩,
   ⟨.importDecl, "./articles", false⟩, ⟨.importDecl, "./issue", false⟩,
   ⟨.enumDecl, "ProjectType", false⟩,
   ⟨.classSignature, "Project", false⟩]

/-- Top-level declarations of the second document of entities/project.d.ts
(the workitem module). -/
def projectDoc2 : List TopDecl :=
  [⟨.importDecl, "./core", false⟩, ⟨.importDecl, "../utils", false⟩,
   ⟨.importDecl, "./project", false⟩, ⟨.importDecl, "./user", false⟩,
   ⟨.classSignature, "WorkItemType", false⟩,
   ⟨.interfaceDecl, "WorkItemAttributes", false⟩,
   ⟨.classSignature, "WorkItemAttributeValue", false⟩,
   ⟨.classSignature, "WorkItemProjectAttribute", false⟩,
   ⟨.classSignature, "BaseWorkItem", false⟩,
   ⟨.classSignature, "IssueWorkItem", false⟩]

/-- Top-level declarations of the third document of entities/project.d.ts
(the http module). -/
def projectDoc3 : List TopDecl :=
  [⟨.interfaceDecl, "Header", false⟩,
   ⟨.classSignature, "Response", false⟩,
   ⟨.typeAlias, "QueryParams", false⟩,
   ⟨.interfaceDecl, "MultipartFormDataPart", false⟩,
   ⟨.interfaceDecl, "MultipartFormDataPayload", false⟩,
   ⟨.enumDecl, "REQUEST_TYPES", false⟩,
   ⟨.classSignature, "Connection", false⟩]

/-- Top-level declarations of entities/tag.d.ts. -/
def tagDoc : List TopDecl :=
  [⟨.importDecl, "./user", false⟩, ⟨.importDecl, "./search", false⟩,
   ⟨.importDecl, "./core", false⟩,
   ⟨.classSignature, "Tag", false⟩]

/-- Top-level declarations of the first document of
src/entities/helpdesk.d.ts. -/
def helpdeskDoc1 : List TopDecl :=
  [⟨.importDecl, "./core", false⟩,
   ⟨.classSignature, "Channel", false⟩,
   ⟨.classSignature, "FeedbackForm", false⟩,
   ⟨.classSignature, "MailboxChannel", false⟩,
   ⟨.classSignature, "Calendar", false⟩,
   ⟨.classSignature, "Calendar24x7", false⟩,
   ⟨.classSignature, "SimpleCalendar", false⟩,
   ⟨.classSignature, "SLA", false⟩,
   ⟨.classSignature, "SLAStatus", false⟩,
   ⟨.classSignature, "XdSlaPausedInterval", false⟩]

/-- Top-level declarations of the second document of
src/entities/helpdesk.d.ts (an agile module variant). -/
def helpdeskDoc2 : List TopDecl :=
  [⟨.importDecl, "./core", false⟩, ⟨.importDecl, "./issue", false⟩,
   ⟨.importDecl, "./user", false⟩,
   ⟨.classSignature, "Agile", false⟩,
   ⟨.classSignature, "Sprint", false⟩]

/-- Top-level declarations of src/entities/search.d.ts. -/
def searchEntitiesDoc : List TopDecl :=
  [⟨.importDecl, "./core", false⟩, ⟨.importDecl, "./user", false⟩,
   ⟨.classSignature, "WatchFolder", false⟩,
   ⟨.classSignature, "SavedQuery", false⟩]

/-- Top-level declarations of strings.d.ts. -/
def stringsDoc : List TopDecl :=
  [⟨.functionSignature, "getLevenshteinDistance", false⟩,
   ⟨.functionSignature, "md5", false⟩]

/-- Top-level declarations of the package entry point (the main index
file): a re-export for each public module of the package. -/
def mainIndexDoc : List TopDecl :=
  [⟨.exportStar, "./notifications", false⟩,
   ⟨.exportStar, "./date-time", false⟩,
   ⟨.exportStar, "./entities", false⟩,
   ⟨.exportStar, "./workflow", false⟩,
   ⟨.exportStar, "./strings", false⟩,
   ⟨.exportStar, "./search", false⟩,
   ⟨.exportStar, "./http", false⟩]

/-- Top-level declarations of the first document of the rule-context
declaration file variant (interfaces RuleContext, ActionContext and the
rule function type aliases). -/
def ruleContextDoc1 : List TopDecl :=
  [⟨.importDecl, "./entities/core", false⟩,
   ⟨.importDecl, "./entities/issue", false⟩,
   ⟨.importDecl, "./entities/user", false⟩,
   ⟨.interfaceDecl, "InputStream", false⟩,
   ⟨.interfaceDecl, "RuleContext", false⟩,
   ⟨.interfaceDecl, "ActionContext", false⟩,
   ⟨.typeAlias, "actionFunction", false⟩,
   ⟨.typeAlias, "guardFunction", false⟩,
   ⟨.interfaceDecl, "SLABreachContext", false⟩,
   ⟨.typeAlias, "slaActionFunction", false⟩,
   ⟨.typeAlias, "slaBreachFunction", false⟩,
   ⟨.typeAlias, "slaEnterFunction", false⟩,
   ⟨.typeAlias, "slaGuardFunction", false⟩]

/-- Top-level declarations of the second document of the rule-context
declaration file variant (a date-time module variant). -/
def ruleContextDoc2 : List TopDecl :=
  [⟨.interfaceDecl, "Period", false⟩,
   ⟨.functionSignature, "after", false⟩,
   ⟨.functionSignature, "before", false⟩,
   ⟨.functionSignature, "format", false⟩,
   ⟨.functionSignature, "parse", false⟩,
   ⟨.functionSignature, "toPeriod", false⟩]

/-- Top-level declarations of the date-time module declaration file. -/
def dateTimeDoc : List TopDecl :=
  [⟨.interfaceDecl, "Period", false⟩,
   ⟨.interfaceDecl, "DateTime", false⟩,
   ⟨.functionSignature, "after", false⟩,
   ⟨.functionSignature, "before", false⟩,
   ⟨.functionSignature, "format", false⟩,
   ⟨.functionSignature, "parse", false⟩,
   ⟨.functionSignature, "toPeriod", false⟩]

/-- Top-level declarations of the workflow module declaration file: a
namespace containing the function signatures check, i18n and message. -/
def workflowDoc : List TopDecl :=
  [⟨.namespaceDecl, "workflow", false⟩]

/-- Top-level declarations of the first document of the notifications
module declaration file. -/
def notificationsDoc1 : List TopDecl :=
  [⟨.importDecl, "./entities/issue", false⟩,
   ⟨.namespaceDecl, "notifications", false⟩]

/-- Top-level declarations of the second document of the notifications
module declaration file (the vcs module). -/
def notificationsDoc2 : List TopDecl :=
  [⟨.importDecl, "./core", false⟩, ⟨.importDecl, "./user", false⟩,
   ⟨.enumDecl, "PullRequestStateEnum", false⟩,
   ⟨.classSignature, "PullRequestState", false⟩,
   ⟨.classSignature, "VcsServer", false⟩,
   ⟨.classSignature, "ChangesProcessor", false⟩,
   ⟨.classSignature, "AbstractVcsItem", false⟩,
   ⟨.classSignature, "VcsChange", false⟩,
   ⟨.classSignature, "PullRequest", false⟩]

/-- Top-level declarations of the entities index variant that re-exports
entity names through export-import aliases. -/
def entitiesAliasIndexDoc : List TopDecl :=
  [⟨.importDecl, "./workitem", false⟩, ⟨.importDecl, "./helpdesk", false⟩,
   ⟨.importDecl, "./articles", false⟩, ⟨.importDecl, "./project", false⟩,
   ⟨.importDecl, "./search", false⟩, ⟨.importDecl, "./issue", false⟩,
   ⟨.importDecl, "./agile", false⟩, ⟨.importDecl, "./field", false⟩,
   ⟨.importDecl, "./user", false⟩, ⟨.importDecl, "./core", false⟩,
   ⟨.importDecl, "./vcs", false⟩, ⟨.importDecl, "./tag", false⟩,
   ⟨.exportImportAlias, "IssueWorkItem", false⟩,
   ⟨.exportImportAlias, "WorkItemType", false⟩,
   ⟨.exportImportAlias, "Calendar", false⟩,
   ⟨.exportImportAlias, "Channel", false⟩,
   ⟨.exportImportAlias, "BaseArticle", false⟩,
   ⟨.exportImportAlias, "Project", false⟩,
   ⟨.exportImportAlias, "WatchFolder", false⟩,
   ⟨.exportImportAlias, "SavedQuery", false⟩,
   ⟨.exportImportAlias, "Issue", false⟩,
   ⟨.exportImportAlias, "IssueComment", false⟩,
   ⟨.exportImportAlias, "IssueAttachment", false⟩,
   ⟨.exportImportAlias, "IssueRuleContext", false⟩,
   ⟨.exportImportAlias, "IssueCommentActionContext", false⟩,
   ⟨.exportImportAlias, "IssueAttachmentActionContext", false⟩,
   ⟨.exportImportAlias, "BaseComment", false⟩,
   ⟨.exportImportAlias, "Sprint", false⟩,
   ⟨.exportImportAlias, "Agile", false⟩,
   ⟨.exportImportAlias, "Fields", false⟩,
   ⟨.exportImportAlias, "User", false⟩,
   ⟨.exportImportAlias, "UserGroup", false⟩,
   ⟨.exportImportAlias, "ProjectTeam", false⟩,
   ⟨.exportImportAlias, "BaseEntity", false⟩,
   ⟨.exportImportAlias, "Set", false⟩,
   ⟨.exportImportAlias, "Requirements", false⟩,
   ⟨.exportImportAlias, "PersistentFile", false⟩,
   ⟨.exportImportAlias, "PullRequest", false⟩,
   ⟨.exportImportAlias, "VcsChange", false⟩,
   ⟨.exportImportAlias, "Tag", false⟩]

/-- Top-level declarations of the field module variant with generic field
value classes. -/
def fieldVariantDoc : List TopDecl :=
  [⟨.importDecl, "../utils", false⟩, ⟨.importDecl, "./core", false⟩,
   ⟨.importDecl, "./user", false⟩, ⟨.importDecl, "./issue", false⟩,
   ⟨.typeAlias, "Fields", false⟩,
   ⟨.classSignature, "Field", false⟩,
   ⟨.classSignature, "EnumField", false⟩,
   ⟨.classSignature, "OwnedField", false⟩,
   ⟨.classSignature, "State", false⟩,
   ⟨.classSignature, "ProjectVersion", false⟩,
   ⟨.classSignature, "Build", false⟩,
   ⟨.classSignature, "ProjectCustomField", false⟩,
   ⟨.classSignature, "SimpleProjectCustomField", false⟩,
   ⟨.classSignature, "UserProjectCustomField", false⟩,
   ⟨.classSignature, "TextProjectCustomField", false⟩,
   ⟨.classSignature, "PeriodProjectCustomField", false⟩,
   ⟨.classSignature, "GroupProjectCustomField", false⟩,
   ⟨.classSignature, "BundleProjectCustomField", false⟩]

/-- Top-level declarations of the first document of utils.d.ts. -/
def utilsDoc1 : List TopDecl :=
  [⟨.importDecl, "./entities/field", false⟩,
   ⟨.importDecl, "./entities", false⟩,
   ⟨.importDecl, "./date-time", false⟩,
   ⟨.enumDecl, "FieldType", false⟩,
   ⟨.typeAlias, "IssueSingleFieldType", false⟩,
   ⟨.typeAlias, "IssueMultiFieldType", false⟩,
   ⟨.typeAlias, "IssueFieldType", false⟩,
   ⟨.typeAlias, "IssueFields", false⟩,
   ⟨.interfaceDecl, "BaseRequirement", false⟩,
   ⟨.interfaceDecl, "IssueLinkPrototypeRequirement", false⟩,
   ⟨.interfaceDecl, "IssueRequirement", false⟩,
   ⟨.interfaceDecl, "TagRequirement", false⟩,
   ⟨.interfaceDecl, "SavedQueryRequirement", false⟩,
   ⟨.interfaceDecl, "UserRequirement", false⟩,
   ⟨.interfaceDecl, "UserGroupRequirement", false⟩,
   ⟨.typeAlias, "RequirementType", false⟩,
   ⟨.interfaceDecl, "Requirement", false⟩,
   ⟨.interfaceDecl, "Requirements", false⟩,
   ⟨.typeAlias, "ActionUserInputType", false⟩,
   ⟨.interfaceDecl, "InputStream", false⟩,
   ⟨.typeAlias, "FieldNameFromRequirement", false⟩,
   ⟨.typeAlias, "ProjectCustomFieldFromRequirement", false⟩,
   ⟨.typeAlias, "ProjectCustomFieldsFromRequirements", false⟩,
   ⟨.typeAlias, "FieldFromRequirement", false⟩,
   ⟨.typeAlias, "RuleContext", false⟩,
   ⟨.typeAlias, "ActionContext", false⟩,
   ⟨.typeAlias, "actionFunction", false⟩,
   ⟨.typeAlias, "guardFunction", false⟩,
   ⟨.typeAlias, "SLABreachContext", false⟩,
   ⟨.typeAlias, "slaActionFunction", false⟩,
   ⟨.typeAlias, "slaBreachFunction", false⟩,
   ⟨.typeAlias, "slaEnterFunction", false⟩,
   ⟨.typeAlias, "slaGuardFunction", false⟩]

/-- Top-level declarations of the second document of utils.d.ts (the
search module). -/
def utilsDoc2 : List TopDecl :=
  [⟨.importDecl, "./entities", false⟩,
   ⟨.importDecl, "./entities/search", false⟩,
   ⟨.functionSignature, "search", false⟩]

/-- The complete inventory of top-level declarations of the package,
one entry per document of each declaration file. -/
def packageDecls : List (String × List TopDecl) :=
  [("entities/agile.d.ts doc1", agileDoc1),
   ("entities/agile.d.ts doc2", agileDoc2),
   ("entities/articles.d.ts", articlesDoc),
   ("entities/core.d.ts", coreDoc),
   ("entities/field.d.ts", fieldDoc),
   ("entities/index.d.ts doc1", entitiesIndexDoc1),
   ("entities/index.d.ts doc2", entitiesIndexDoc2),
   ("entities/project.d.ts doc1", projectDoc1),
   ("entities/project.d.ts doc2", projectDoc2),
   ("entities/project.d.ts doc3", projectDoc3),
   ("entities/tag.d.ts", tagDoc),
   ("src/entities/helpdesk.d.ts doc1", helpdeskDoc1),
   ("src/entities/helpdesk.d.ts doc2", helpdeskDoc2),
   ("src/entities/search.d.ts", searchEntitiesDoc),
   ("strings.d.ts", stringsDoc),
   ("index.d.ts", mainIndexDoc),
   ("rule-context doc1", ruleContextDoc1),
   ("rule-context doc2", ruleContextDoc2),
   ("date-time.d.ts", dateTimeDoc),
   ("workflow.d.ts", workflowDoc),
   ("notifications.d.ts doc1", notificationsDoc1),
   ("notifications.d.ts doc2", notificationsDoc2),
   ("entities alias index", entitiesAliasIndexDoc),
   ("field variant", fieldVariantDoc),
   ("utils.d.ts doc1", utilsDoc1),
   ("utils.d.ts doc2", utilsDoc2)]

/-- The three declaration forms that the specification claims are the only
forms occurring in the package. -/
def claimedDeclarativeKinds : List DeclKind :=
  [.interfaceDecl, .classSignature, .typeAlias]

/-- All declaration forms that actually occur in the package; every one of
them is declarative (type-only or ambient, with no implementation). -/
def occurringDeclarativeKinds : List DeclKind :=
  [.importDecl, .exportStar, .exportImportAlias, .interfaceDecl,
   .classSignature, .typeAlias, .enumDecl, .functionSignature,
   .namespaceDecl]

/-- Decides whether every top-level declaration of the package has one of
the given kinds. -/
def allDeclsHaveKinds (kinds : List DeclKind) : Bool :=
  packageDecls.all (fun doc => doc.2.all (fun d => kinds.contains d.kind))

/-- Decides whether some declared function or method of the package has an
implementation body. -/
def someDeclHasBody : Bool :=
  packageDecls.any (fun doc => doc.2.any (fun d => d.hasBody))

/-- Module paths declared by the documents of the package, relative to the
package root, paired with the document that declares the module. -/
def packageModuleDocs : List (String × String) :=
  [("./entities", "entities/index.d.ts doc1"),
   ("./entities", "entities alias index"),
   ("./strings", "strings.d.ts"),
   ("./date-time", "date-time.d.ts"),
   ("./workflow", "workflow.d.ts"),
   ("./notifications", "notifications.d.ts doc1"),
   ("./search", "utils.d.ts doc2"),
   ("./http", "entities/project.d.ts doc3")]

/-- Module paths declared somewhere in the package. -/
def declaredModulePaths : List String :=
  packageModuleDocs.map (fun p => p.1)

/-- Module paths named by the star re-exports of the package entry
point. -/
def indexReExports : List String :=
  (mainIndexDoc.filter (fun d => d.kind == .exportStar)).map (fun d => d.name)

/-- Names of the entity classes that occur in the conditional-type
machinery of utils.d.ts, either as members of the RequirementType and
ActionUserInputType unions or as branch targets of the conditional
chains. -/
inductive ClassName
  | baseEntity
  | watchFolder
  | tag
  | savedQuery
  | user
  | userGroup
  | project
  | issue
  | issueLinkPrototype
  | field
  | enumField
  | ownedField
  | state
  | projectVersion
  | build
deriving DecidableEq, Repr

/-- Instance member names of BaseEntity (entities/core.d.ts). -/
def baseEntityInstProps : List String :=
  ["id", "$type", "becomesRemoved", "isNew", "isEqual", "becomes",
   "canBeReadBy", "canBeWrittenBy", "is", "isChanged", "oldValue",
   "required", "was"]

/-- Instance member names of WatchFolder (src/entities/search.d.ts),
inherited members included. -/
def watchFolderInstProps : List String :=
  baseEntityInstProps ++
  ["permittedReadUserGroups", "permittedReadUsers",
   "permittedUpdateUserGroups", "permittedUpdateUsers", "shareGroup",
   "updateShareGroup"]

/-- Instance member names of Tag (entities/tag.d.ts), inherited members
included. -/
def tagInstProps : List String :=
  watchFolderInstProps ++
  ["name", "owner", "permittedTagUserGroups", "permittedTagUsers"]

/-- Instance member names of SavedQuery (src/entities/search.d.ts),
inherited members included; isChanged, oldValue and required are
re-declarations of BaseEntity members. -/
def savedQueryInstProps : List String :=
  watchFolderInstProps ++
  ["name", "owner", "query", "isChanged", "oldValue", "required"]

/-- Instance member names of User (user module, second document of
entities/agile.d.ts), inherited members included. -/
def userInstProps : List String :=
  baseEntityInstProps ++
  ["attributes", "avatarUrl", "email", "firstDayOfWeeks", "fullName",
   "isBanned", "isEmailVerified", "isOnline", "isSystem", "language",
   "login", "registered", "ringId", "timeZoneId", "visibleName",
   "canUnvoteIssue", "canVoteIssue", "getSharedTag", "getTag", "hasRole",
   "isInGroup", "notify", "notifyOnCase", "sendMail", "unvoteIssue",
   "unwatchArticle", "unwatchIssue", "voteIssue", "watchArticle",
   "watchIssue"]

/-- Instance member names of UserGroup (user module, second document of
entities/agile.d.ts), inherited members included. -/
def userGroupInstProps : List String :=
  baseEntityInstProps ++
  ["description", "isAllUsersGroup", "isAutoJoin", "name", "users",
   "notifyAllUsers"]

/-- Instance member names of Project (entities/project.d.ts), inherited
members included. -/
def projectInstProps : List String :=
  baseEntityInstProps ++
  ["articles", "changesProcessors", "description", "fields", "isArchived",
   "issues", "key", "leader", "name", "notificationEmail", "projectType",
   "shortName", "team", "workItemAttributes", "findFieldByName",
   "findWorkItemAttributeByName", "intervalToWorkingMinutes", "isAgent",
   "newDraft"]

/-- Instance member names of Issue (issue module, second document of
entities/index.d.ts), inherited members included; isChanged, oldValue,
required and was are re-declarations of BaseEntity members. -/
def issueInstProps : List String :=
  baseEntityInstProps ++
  ["summary", "description", "project", "reporter", "comments", "fields",
   "attachments", "links", "workItems", "becomesReported",
   "becomesResolved", "becomesUnresolved", "channel", "created",
   "duplicateRoot", "editedComments", "editedWorkItems", "isReported",
   "isResolved", "isStarred", "numberInProject", "permittedGroup",
   "permittedGroups", "permittedUsers", "pinnedComments", "pullRequests",
   "resolved", "tags", "unauthenticatedReporter", "updated", "updatedBy",
   "url", "vcsChanges", "voters", "votes", "isDraft", "addAttachment",
   "addComment", "addTag", "addWorkItem", "applyCommand",
   "clearAttachments", "isChanged", "oldValue", "pauseSLA", "removeTag",
   "required", "was"]

/-- Instance member names of IssueLinkPrototype (entities/core.d.ts),
inherited members included. -/
def issueLinkPrototypeInstProps : List String :=
  baseEntityInstProps ++ ["inward", "outward"]

/-- Instance member names of Field (entities/field.d.ts), inherited
members included. -/
def fieldInstProps : List String :=
  baseEntityInstProps ++
  ["backgroundColor", "colorIndex", "description", "foregroundColor",
   "isArchived", "name", "ordinal", "presentation"]

/-- Instance member names of EnumField (entities/field.d.ts): the class
declares static members only, so its instance shape equals the instance
shape of Field. -/
def enumFieldInstProps : List String :=
  fieldInstProps

/-- Instance member names of OwnedField (entities/field.d.ts), inherited
members included. -/
def ownedFieldInstProps : List String :=
  fieldInstProps ++ ["owner"]

/-- Instance member names of State (entities/field.d.ts), inherited
members included. -/
def stateInstProps : List String :=
  fieldInstProps ++ ["isResolved"]

/-- Instance member names of ProjectVersion (entities/field.d.ts),
inherited members included. -/
def projectVersionInstProps : List String :=
  fieldInstProps ++ ["isReleased", "releaseDate", "startDate"]

/-- Instance member names of Build (entities/field.d.ts), inherited
members included. -/
def buildInstProps : List String :=
  fieldInstProps ++ ["assembleDate"]

/-- Instance member names of each class of the closed set. -/
def instanceProps : ClassName → List String
  | .baseEntity => baseEntityInstProps
  | .watchFolder => watchFolderInstProps
  | .tag => tagInstProps
  | .savedQuery => savedQueryInstProps
  | .user => userInstProps
  | .userGroup => userGroupInstProps
  | .project => projectInstProps
  | .issue => issueInstProps
  | .issueLinkPrototype => issueLinkPrototypeInstProps
  | .field => fieldInstProps
  | .enumField => enumFieldInstProps
  | .ownedField => ownedFieldInstProps
  | .state => stateInstProps
  | .projectVersion => projectVersionInstProps
  | .build => buildInstProps

/-- Static member names of Field (entities/field.d.ts). -/
def fieldStaticProps : List String :=
  ["dateTimeType", "dateType", "floatType", "integerType", "periodType",
   "stringType", "textType"]

/-- Static member names of each class of the closed set, inherited static
members included (a TypeScript class inherits the static side of its base
class). -/
def staticProps : ClassName → List String
  | .baseEntity => []
  | .watchFolder => []
  | .tag => ["findByExtensionProperties", "findByName", "findTagByName"]
  | .savedQuery => ["findByExtensionProperties", "findByName", "findQueryByName"]
  | .user => ["current", "fieldType", "findByEmail",
      "findByExtensionProperties", "findByLogin", "findUniqueByEmail"]
  | .userGroup => ["allUsersGroup", "fieldType", "findByExtensionProperties",
      "findByName"]
  | .project => ["findByExtensionProperties", "findByKey", "findByName"]
  | .issue => ["action", "createDraft", "createSharedDraft", "findById",
      "onChange", "onSchedule", "sla", "stateMachine"]
  | .issueLinkPrototype => ["findByName", "findByExtensionProperties"]
  | .field => fieldStaticProps
  | .enumField => fieldStaticProps ++ ["fieldType", "findByExtensionProperties"]
  | .ownedField => fieldStaticProps ++ ["fieldType", "findByExtensionProperties"]
  | .state => fieldStaticProps ++ ["fieldType", "findByExtensionProperties"]
  | .projectVersion => fieldStaticProps ++ ["fieldType", "findByExtensionProperties"]
  | .build => fieldStaticProps ++ ["fieldType", "findByExtensionProperties"]

/-- Decides containment of one list of member names in another. -/
def subsetB (xs ys : List String) : Bool :=
  xs.all (fun x => ys.contains x)

/-- Members of the FieldType string enum of utils.d.ts.  Each member is a
distinct string literal type; the enum member type of one member is not
assignable to the enum member type of another. -/
inductive FieldTypeMember
  | dateTimeType
  | dateType
  | integerType
  | floatType
  | periodType
  | stringType
  | textType
  | enumFieldType
  | stateFieldType
  | versionFieldType
  | buildFieldType
  | userFieldType
  | ownedFieldType
deriving DecidableEq, Repr

/-- The string value of a FieldType enum member (utils.d.ts initialises
every member with the string equal to its own name). -/
def FieldTypeMember.value : FieldTypeMember → String
  | .dateTimeType => "dateTimeType"
  | .dateType => "dateType"
  | .integerType => "integerType"
  | .floatType => "floatType"
  | .periodType => "periodType"
  | .stringType => "stringType"
  | .textType => "textType"
  | .enumFieldType => "enumFieldType"
  | .stateFieldType => "stateFieldType"
  | .versionFieldType => "versionFieldType"
  | .buildFieldType => "buildFieldType"
  | .userFieldType => "userFieldType"
  | .ownedFieldType => "ownedFieldType"

/-- The closed set of type expressions that the conditional chains of
utils.d.ts test with the extends operator: FieldType enum member types,
constructor types (typeof C) and class instance types. -/
inductive TypeExpr
  | lit : FieldTypeMember → TypeExpr
  | cons : ClassName → TypeExpr
  | inst : ClassName → TypeExpr
deriving DecidableEq, Repr

/-- TypeScript assignability on the closed set of type expressions.

All member declarations of the modelled classes are public, so TypeScript
compares the classes structurally.  On this closed set structural
assignability reduces to containment of member-name sets: whenever the
member names of the target are contained in the member names of the
source, the member types agree as well, because every shared member name
either carries an identical declared type in both classes or is a method
inherited from the common ancestor BaseEntity (method positions are
compared bivariantly).  An enum member type is assignable only to itself
among enum member types, and a string literal type is never assignable to
one of the class instance types (each requires the BaseEntity members).
A constructor type is assignable to an instance type only if the static
members cover the instance members, which never happens here because no
static side declares the BaseEntity members. -/
def tsExtends : TypeExpr → TypeExpr → Bool
  | .lit a, .lit b => a == b
  | .lit _, .cons _ => false
  | .lit _, .inst _ => false
  | .cons _, .lit _ => false
  | .cons a, .cons b =>
      subsetB (staticProps b) (staticProps a) &&
      subsetB (instanceProps b) (instanceProps a)
  | .cons a, .inst b => subsetB (instanceProps b) (staticProps a)
  | .inst _, .lit _ => false
  | .inst _, .cons _ => false
  | .inst a, .inst b => subsetB (instanceProps b) (instanceProps a)

/-- The members of the RequirementType union of utils.d.ts, in source
order. -/
def RequirementTypeMembers : List TypeExpr :=
  [.cons .user, .cons .userGroup, .cons .project, .cons .issue, .cons .tag,
   .cons .savedQuery, .cons .issueLinkPrototype,
   .lit .userFieldType, .lit .enumFieldType, .lit .dateType,
   .lit .dateTimeType, .lit .integerType, .lit .floatType,
   .lit .stringType, .lit .textType, .lit .periodType,
   .lit .versionFieldType, .lit .stateFieldType, .lit .buildFieldType,
   .lit .ownedFieldType]

/-- The members of the ActionUserInputType union of utils.d.ts, in source
order.  The entity members of the union are instance types. -/
def ActionUserInputTypeMembers : List TypeExpr :=
  [.lit .dateTimeType, .lit .dateType, .lit .integerType, .lit .floatType,
   .lit .periodType, .lit .stringType,
   .inst .build, .inst .enumField, .inst .issue, .inst .tag,
   .inst .ownedField, .inst .project, .inst .projectVersion, .inst .user,
   .inst .userGroup]

/-- The entity types that the type ProjectCustomFieldFromRequirement of
utils.d.ts can produce, together with never for the final else branch. -/
inductive CtxEntityTy
  | projectCustomField
  | textProjectCustomField
  | periodProjectCustomField
  | bundleProjectCustomField
  | userProjectCustomField
  | groupProjectCustomField
  | projectTy
  | issueTy
  | userTy
  | tagTy
  | never
deriving DecidableEq, Repr

/-- The conditional chain of the type ProjectCustomFieldFromRequirement of
utils.d.ts, applied to a single member of the RequirementType union.  Each
branch is translated in source order; the branch condition is the
TypeScript extends test of the scrutinee against the branch target. -/
def ProjectCustomFieldFromRequirement (t : TypeExpr) : CtxEntityTy :=
  if tsExtends t (.lit .stringType) then .projectCustomField
  else if tsExtends t (.lit .textType) then .textProjectCustomField
  else if tsExtends t (.lit .periodType) then .periodProjectCustomField
  else if tsExtends t (.lit .integerType) then .projectCustomField
  else if tsExtends t (.lit .floatType) then .projectCustomField
  else if tsExtends t (.lit .dateType) then .periodProjectCustomField
  else if tsExtends t (.lit .dateTimeType) then .periodProjectCustomField
  else if tsExtends t (.lit .enumFieldType) then .bundleProjectCustomField
  else if tsExtends t (.cons .enumField) then .bundleProjectCustomField
  else if tsExtends t (.lit .userFieldType) then .userProjectCustomField
  else if tsExtends t (.cons .ownedField) then .userProjectCustomField
  else if tsExtends t (.cons .state) then .bundleProjectCustomField
  else if tsExtends t (.cons .projectVersion) then .bundleProjectCustomField
  else if tsExtends t (.cons .build) then .bundleProjectCustomField
  else if tsExtends t (.cons .userGroup) then .groupProjectCustomField
  else if tsExtends t (.cons .project) then .projectTy
  else if tsExtends t (.cons .issue) then .issueTy
  else if tsExtends t (.cons .user) then .userTy
  else if tsExtends t (.cons .tag) then .tagTy
  else .never

/-- The value types that the type FieldFromRequirement of utils.d.ts can
produce, together with never for the final else branch. -/
inductive FieldValueTy
  | dateVal
  | numberVal
  | strVal
  | instVal : ClassName → FieldValueTy
  | neverVal
deriving DecidableEq, Repr

/-- The conditional chain of the type FieldFromRequirement of utils.d.ts,
applied to a single member of the ActionUserInputType union.  Each branch
is translated in source order; a branch against a union of targets holds
when the scrutinee extends one of the targets. -/
def FieldFromRequirement (t : TypeExpr) : FieldValueTy :=
  if tsExtends t (.lit .dateTimeType) || tsExtends t (.lit .dateType) then
    .dateVal
  else if tsExtends t (.lit .integerType) || tsExtends t (.lit .floatType)
      || tsExtends t (.lit .periodType) then .numberVal
  else if tsExtends t (.lit .stringType) then .strVal
  else if tsExtends t (.inst .enumField) then .strVal
  else if tsExtends t (.inst .build) then .instVal .build
  else if tsExtends t (.inst .issue) then .instVal .issue
  else if tsExtends t (.inst .tag) then .instVal .tag
  else if tsExtends t (.inst .ownedField) then .instVal .ownedField
  else if tsExtends t (.inst .project) then .instVal .project
  else if tsExtends t (.inst .projectVersion) then .instVal .projectVersion
  else if tsExtends t (.inst .user) then .instVal .user
  else if tsExtends t (.inst .userGroup) then .instVal .userGroup
  else .neverVal

/-- A value-level requirement record, following the Requirement interface
of utils.d.ts: a mandatory type field drawn from the RequirementType union
and the optional declared fields. -/
structure RequirementV where
  type : TypeExpr
  name : Option String := none
  id : Option String := none
  inward : Option String := none
  login : Option String := none
  multi : Option Bool := none
  outward : Option String := none
deriving DecidableEq, Repr

/-- The type FieldNameFromRequirement of utils.d.ts: the name property of
the requirement when one is given, and the key of the requirement in the
Requirements object otherwise. -/
def FieldNameFromRequirement (k : String) (r : RequirementV) : String :=
  match r.name with
  | some n => n
  | none => k

/-- The mapped type ProjectCustomFieldsFromRequirements of utils.d.ts: the
keys of the requirements record are remapped through
FieldNameFromRequirement and each value type is transformed through
ProjectCustomFieldFromRequirement.  A requirements record is modelled as
an association list from keys to requirement records. -/
def ProjectCustomFieldsFromRequirements
    (rs : List (String × RequirementV)) : List (String × CtxEntityTy) :=
  rs.map (fun p =>
    (FieldNameFromRequirement p.1 p.2,
     ProjectCustomFieldFromRequirement p.2.type))

/-- The type of one property of a derived rule context: entity properties
coming from the requirements or from the base context, the optional
boolean isSilentOperation, and the optional userInput property. -/
inductive CtxVal
  | entity : CtxEntityTy → CtxVal
  | boolean : CtxVal
  | fieldValue : FieldValueTy → CtxVal
deriving DecidableEq, Repr

/-- One property of a derived context type: its name, whether it is
declared optional, and its type. -/
structure CtxProp where
  pname : String
  optional : Bool
  ty : CtxVal
deriving DecidableEq, Repr

/-- The type RuleContext of utils.d.ts: the intersection of
ProjectCustomFieldsFromRequirements with the two base properties issue and
currentUser.  An intersection of object types is modelled as the
concatenation of their property lists. -/
def RuleContext (rs : List (String × RequirementV)) : List CtxProp :=
  ((ProjectCustomFieldsFromRequirements rs).map
    (fun p => CtxProp.mk p.1 false (.entity p.2))) ++
  [⟨"issue", false, .entity .issueTy⟩,
   ⟨"currentUser", false, .entity .userTy⟩]

/-- The type ActionContext of utils.d.ts: the intersection of RuleContext
with the optional properties isSilentOperation and userInput, the latter
typed through FieldFromRequirement at the user-input type parameter. -/
def ActionContext (rs : List (String × RequirementV)) (t : TypeExpr) :
    List CtxProp :=
  RuleContext rs ++
  [⟨"isSilentOperation", true, .boolean⟩,
   ⟨"userInput", true, .fieldValue (FieldFromRequirement t)⟩]

/-- A runtime value that the type field of a requirement can hold: a
string (the FieldType enum members are strings) or one of the entity class
objects. -/
inductive ReqTypeValue
  | strV : String → ReqTypeValue
  | consV : ClassName → ReqTypeValue
deriving DecidableEq, Repr

/-- The string values of the thirteen FieldType enum members of
utils.d.ts. -/
def fieldTypeStrings : List String :=
  ["dateTimeType", "dateType", "integerType", "floatType", "periodType",
   "stringType", "textType", "enumFieldType", "stateFieldType",
   "versionFieldType", "buildFieldType", "userFieldType", "ownedFieldType"]

/-- The seven entity classes whose constructor types appear in the type
field of both Requirement declarations. -/
def requirementEntityClasses : List ClassName :=
  [.user, .userGroup, .project, .issue, .tag, .savedQuery,
   .issueLinkPrototype]

/-- Decides whether a value is admitted by the type field of the
Requirement interface of utils.d.ts, whose declared type is the
RequirementType union: one of the thirteen FieldType enum members or one
of the seven entity class objects. -/
def utilsRequirementTypeAdmits : ReqTypeValue → Bool
  | .strV s => fieldTypeStrings.contains s
  | .consV c => requirementEntityClasses.contains c

/-- Decides whether a value is admitted by the type field of the
Requirement interface of entities/core.d.ts, whose declared type is the
union of string with the seven entity constructor types: every string is
admitted. -/
def coreRequirementTypeAdmits : ReqTypeValue → Bool
  | .strV _ => true
  | .consV c => requirementEntityClasses.contains c

/-- The fields of the Requirement interface of utils.d.ts other than the
type field, in source order, with their optionality.  The interface also
carries a string index signature admitting string, boolean, object and
undefined values. -/
def utilsRequirementFields : List (String × Bool) :=
  [("id", true), ("inward", true), ("login", true), ("multi", true),
   ("name", true), ("outward", true), ("type", false)]

/-- The fields of the Requirement interface of entities/core.d.ts other
than the type field, in source order, with their optionality.  The
interface also carries a string index signature admitting string, boolean,
object and undefined values. -/
def coreRequirementFields : List (String × Bool) :=
  [("id", true), ("inward", true), ("login", true), ("multi", true),
   ("name", true), ("outward", true), ("type", false)]

/-- Modelled from the spec: the runtime implementation of workflow.check
is not part of this repository; only its signature and doc comment are
(workflow module declaration file).  The doc comment states that when the
condition is not true the system throws an error containing the given
message and all changes are rolled back to the initial state.  A
transaction is modelled as the pair of the state at the start of the
transaction and the current state; check returns the resulting transaction
and the thrown error message, if any. -/
structure Transaction (σ : Type) where
  initial : σ
  current : σ
deriving DecidableEq, Repr

/-- Modelled from the spec: the behaviour of workflow.check on a
transaction, per its doc comment.  When the condition holds the call has
no effect and nothing is thrown; when it does not hold, the message is
thrown and the current state is rolled back to the initial state. -/
def workflowCheck {σ : Type} (condition : Bool) (message : String)
    (t : Transaction σ) : Transaction σ × Option String :=
  if condition then (t, none)
  else ({ initial := t.initial, current := t.initial }, some message)

/-- Modelled from the spec: the runtime implementation of YTSet is not
part of this repository; only its class signature and doc comments are
(entities/core.d.ts).  The collection is modelled as the list of its
elements in insertion order. -/
structure YTSetM (α : Type) where
  elems : List α
deriving DecidableEq, Repr

/-- Modelled from the spec: YTSet.get finds the element at an index
position, with a nullable return type; absence, including any
out-of-range index, is signalled by none rather than by an error.  The
index is an arbitrary integer, as the declared parameter type is
number. -/
def YTSetM.get {α : Type} (s : YTSetM α) (i : Int) : Option α :=
  if h : 0 ≤ i ∧ i.toNat < s.elems.length then
    some (s.elems.get ⟨i.toNat, h.2⟩)
  else none

/-- Modelled from the spec: YTSet.first returns the first object of the
collection, with a nullable return type. -/
def YTSetM.first {α : Type} (s : YTSetM α) : Option α :=
  s.elems.head?

/-- Modelled from the spec: YTSet.last returns the last object of the
collection, with a nullable return type. -/
def YTSetM.last {α : Type} (s : YTSetM α) : Option α :=
  s.elems.getLast?

/-- Modelled from the spec: YTSet.find returns the first element for which
the predicate returns true, and undefined (modelled none) when no element
satisfies it. -/
def YTSetM.find {α : Type} (s : YTSetM α) (p : α → Bool) : Option α :=
  s.elems.find? p

/-- Modelled from the spec: the runtime implementation of Iterator is not
part of this repository; only its interface and doc comments are
(entities/core.d.ts).  The iterator is modelled by the list of elements
that were not yet traversed. -/
structure IteratorM (α : Type) where
  remaining : List α
deriving DecidableEq, Repr

/-- The result of one call to Iterator.next: the done flag and the
nullable value. -/
structure IterResult (α : Type) where
  done : Bool
  value : Option α
deriving DecidableEq, Repr

/-- Modelled from the spec: Iterator.next per its doc comment.  If there
are elements that were not traversed, done is false and value is the next
element of the collection; if all elements were traversed, done is true
and value is null. -/
def IteratorM.next {α : Type} (it : IteratorM α) :
    IteratorM α × IterResult α :=
  match it.remaining with
  | [] => (⟨[]⟩, ⟨true, none⟩)
  | x :: xs => (⟨xs⟩, ⟨false, some x⟩)

/-- The members of the RequirementType union on which the conditional
chain of ProjectCustomFieldFromRequirement falls through every branch and
produces never: the four FieldType members that the chain only tests as
constructor types, and the two entity constructor types the chain never
tests. -/
def requirementNeverMembers : List TypeExpr :=
  [.cons .savedQuery, .cons .issueLinkPrototype, .lit .versionFieldType,
   .lit .stateFieldType, .lit .buildFieldType, .lit .ownedFieldType]

/-- Claim C1, counterexample: the package is not made up only of
interfaces, class signatures and type aliases; strings.d.ts consists of
two bodiless function signatures, so the claimed list of declaration forms
does not cover the package. -/
theorem C1_claim_counterexample :
    (TopDecl.mk .functionSignature "getLevenshteinDistance" false) ∈
      stringsDoc ∧
    DeclKind.functionSignature ∉ claimedDeclarativeKinds ∧
    allDeclsHaveKinds claimedDeclarativeKinds = false := by
  decide

/-- C1 (amended): every top-level declaration of every document of the
package is one of the declarative forms that occur in ambient declaration
files (type-only imports and re-exports, interfaces, ambient class
signatures, type aliases, ambient enums, bodiless function signatures and
ambient namespaces), and no declared function or method has a body, so
importing or using any module of the package performs no computation at
run time. -/
theorem C1_package_purely_declarative :
    allDeclsHaveKinds occurringDeclarativeKinds = true ∧
    someDeclHasBody = false := by
  decide

/-- Claim C2, counterexample: FieldType.stateFieldType is a member of the
RequirementType union, yet ProjectCustomFieldFromRequirement maps it to
never, because the conditional chain only tests the constructor type of
the State class, to which an enum member type is not assignable. -/
theorem C2_claim_counterexample :
    TypeExpr.lit .stateFieldType ∈ RequirementTypeMembers ∧
    ProjectCustomFieldFromRequirement (.lit .stateFieldType) = .never := by
  decide

/-- C2 (amended): for a requirement whose type is one of the fourteen
members of the RequirementType union outside requirementNeverMembers,
ProjectCustomFieldFromRequirement produces a concrete entity type; on the
six members of requirementNeverMembers (FieldType.stateFieldType,
FieldType.versionFieldType, FieldType.buildFieldType,
FieldType.ownedFieldType, typeof SavedQuery and typeof IssueLinkPrototype)
it produces never, so the derived context entry for such a requirement has
type never. -/
theorem C2_mapping_never_exactly_on_six :
    (RequirementTypeMembers.all fun t =>
      (ProjectCustomFieldFromRequirement t == .never) ==
        requirementNeverMembers.contains t) = true ∧
    ProjectCustomFieldFromRequirement (.cons .user) = .userTy ∧
    ProjectCustomFieldFromRequirement (.cons .userGroup) =
      .groupProjectCustomField ∧
    ProjectCustomFieldFromRequirement (.cons .project) = .projectTy ∧
    ProjectCustomFieldFromRequirement (.cons .issue) = .issueTy ∧
    ProjectCustomFieldFromRequirement (.cons .tag) = .tagTy ∧
    ProjectCustomFieldFromRequirement (.lit .userFieldType) =
      .userProjectCustomField ∧
    ProjectCustomFieldFromRequirement (.lit .enumFieldType) =
      .bundleProjectCustomField ∧
    ProjectCustomFieldFromRequirement (.lit .stringType) =
      .projectCustomField ∧
    ProjectCustomFieldFromRequirement (.lit .integerType) =
      .projectCustomField ∧
    ProjectCustomFieldFromRequirement (.lit .floatType) =
      .projectCustomField ∧
    ProjectCustomFieldFromRequirement (.lit .textType) =
      .textProjectCustomField ∧
    ProjectCustomFieldFromRequirement (.lit .periodType) =
      .periodProjectCustomField ∧
    ProjectCustomFieldFromRequirement (.lit .dateType) =
      .periodProjectCustomField ∧
    ProjectCustomFieldFromRequirement (.lit .dateTimeType) =
      .periodProjectCustomField := by
  decide

/-- C3: for every requirements record and every requirement in it, the
derived record ProjectCustomFieldsFromRequirements exposes the requirement
under the name given by its name field when one is present and under its
key otherwise, with the property type determined from the type field by
ProjectCustomFieldFromRequirement. -/
theorem C3_context_key_and_type (rs : List (String × RequirementV))
    (k : String) (r : RequirementV) (h : (k, r) ∈ rs) :
    ((match r.name with | some n => n | none => k),
      ProjectCustomFieldFromRequirement r.type) ∈
        ProjectCustomFieldsFromRequirements rs ∧
    (∀ n, r.name = some n → FieldNameFromRequirement k r = n) ∧
    (r.name = none → FieldNameFromRequirement k r = k) := by
  refine ⟨?_, ?_, ?_⟩
  · have hm := List.mem_map_of_mem (fun p : String × RequirementV =>
      (FieldNameFromRequirement p.1 p.2,
       ProjectCustomFieldFromRequirement p.2.type)) h
    simpa [ProjectCustomFieldsFromRequirements, FieldNameFromRequirement]
      using hm
  · intro n hn
    simp [FieldNameFromRequirement, hn]
  · intro hn
    simp [FieldNameFromRequirement, hn]

/-- C3 witness: a requirements record with one enum field requirement
named Severity under the key bug produces a context entry named Severity
of bundle custom field type. -/
theorem C3_witness :
    (("Severity", CtxEntityTy.bundleProjectCustomField) ∈
      ProjectCustomFieldsFromRequirements
        [("bug", ⟨.lit .enumFieldType, some "Severity", none, none, none,
          none, none⟩)]) :=
  (C3_context_key_and_type
    [("bug", ⟨.lit .enumFieldType, some "Severity", none, none, none, none,
      none⟩)]
    "bug"
    ⟨.lit .enumFieldType, some "Severity", none, none, none, none, none⟩
    (by decide)).1

/-- Claim C4, counterexample: Build is a member of the ActionUserInputType
union, but FieldFromRequirement maps it to string rather than to Build:
the branch testing EnumField precedes the branch testing Build, and Build
is structurally assignable to EnumField because EnumField declares no
instance member beyond those of Field. -/
theorem C4_claim_counterexample :
    TypeExpr.inst .build ∈ ActionUserInputTypeMembers ∧
    FieldFromRequirement (.inst .build) = .strVal ∧
    FieldFromRequirement (.inst .build) ≠ .instVal .build := by
  decide

/-- C4 (amended): FieldFromRequirement maps every member of the
ActionUserInputType union to a concrete value type and never to never;
dateTimeType and dateType map to Date; integerType, floatType and
periodType map to number; stringType and EnumField map to string; Issue,
Tag, Project, User and UserGroup map to themselves; and Build, OwnedField
and ProjectVersion, being structural subtypes of EnumField, map to string
rather than to themselves. -/
theorem C4_mapping_concrete_for_all_members :
    (ActionUserInputTypeMembers.all fun t =>
      FieldFromRequirement t != .neverVal) = true ∧
    FieldFromRequirement (.lit .dateTimeType) = .dateVal ∧
    FieldFromRequirement (.lit .dateType) = .dateVal ∧
    FieldFromRequirement (.lit .integerType) = .numberVal ∧
    FieldFromRequirement (.lit .floatType) = .numberVal ∧
    FieldFromRequirement (.lit .periodType) = .numberVal ∧
    FieldFromRequirement (.lit .stringType) = .strVal ∧
    FieldFromRequirement (.inst .enumField) = .strVal ∧
    FieldFromRequirement (.inst .build) = .strVal ∧
    FieldFromRequirement (.inst .ownedField) = .strVal ∧
    FieldFromRequirement (.inst .projectVersion) = .strVal ∧
    FieldFromRequirement (.inst .issue) = .instVal .issue ∧
    FieldFromRequirement (.inst .tag) = .instVal .tag ∧
    FieldFromRequirement (.inst .project) = .instVal .project ∧
    FieldFromRequirement (.inst .user) = .instVal .user ∧
    FieldFromRequirement (.inst .userGroup) = .instVal .userGroup := by
  decide

/-- Claim C5, counterexample: the type field of the Requirement interface
of entities/core.d.ts admits the arbitrary string bogus, which the type
field of the Requirement interface of utils.d.ts rejects, so the two
declarations do not accept the same set of values. -/
theorem C5_claim_counterexample :
    coreRequirementTypeAdmits (.strV "bogus") = true ∧
    utilsRequirementTypeAdmits (.strV "bogus") = false := by
  decide

/-- C5 (amended): the two Requirement declarations agree on every field
other than type, in names, order and optionality, and on the entity
constructor members of the type field; every type value admitted by the
utils.d.ts declaration is admitted by the entities/core.d.ts declaration,
but not conversely: the core declaration admits every string, so its type
field is strictly wider. -/
theorem C5_requirement_shapes_compared :
    utilsRequirementFields = coreRequirementFields ∧
    (∀ v, utilsRequirementTypeAdmits v = true →
      coreRequirementTypeAdmits v = true) ∧
    (∀ c, utilsRequirementTypeAdmits (.consV c) =
      coreRequirementTypeAdmits (.consV c)) := by
  refine ⟨rfl, ?_, ?_⟩
  · intro v h
    cases v with
    | strV s => rfl
    | consV c => exact h
  · intro c
    rfl

/-- C5 witness: the string value of FieldType.stringType is admitted by
both declarations. -/
theorem C5_witness :
    coreRequirementTypeAdmits (.strV "stringType") = true :=
  C5_requirement_shapes_compared.2.1 (.strV "stringType") (by decide)

/-- C6: workflow.check throws the given message exactly when the condition
is false; on a throw the current state is rolled back to the state at the
start of the transaction, and when the condition is true the call has no
effect on the transaction. -/
theorem C6_workflow_check_semantics (σ : Type) (c : Bool) (m : String)
    (t : Transaction σ) :
    ((workflowCheck c m t).2 = some m ↔ c = false) ∧
    ((workflowCheck c m t).2 = none ↔ c = true) ∧
    (c = false → (workflowCheck c m t).1.current = t.initial) ∧
    (c = true → (workflowCheck c m t).1 = t) := by
  cases c <;> simp [workflowCheck]

/-- C6 witness: on a failing condition over a concrete transaction the
current state is rolled back to the initial state. -/
theorem C6_witness :
    (workflowCheck false "no permission" (Transaction.mk 0 5)).1.current
      = 0 :=
  (C6_workflow_check_semantics Nat false "no permission" ⟨0, 5⟩).2.2.1 rfl

/-- C7: every module path named in a star re-export of the package entry
point is declared by some document of the package; in particular the http
re-export resolves to the http module declared in the third document of
entities/project.d.ts. -/
theorem C7_reexports_resolve :
    indexReExports.all (fun m => declaredModulePaths.contains m) = true ∧
    ("./http", "entities/project.d.ts doc3") ∈ packageModuleDocs := by
  decide

/-- C8: element access on the YTSet model is total at the interface:
get returns an element of the set or none, any out-of-range index yields
none rather than an error, first and last yield none on the empty set, and
find yields none when no element satisfies the predicate. -/
theorem C8_ytset_access_total {α : Type} (s : YTSetM α) (i : Int)
    (p : α → Bool) :
    (∀ x, s.get i = some x → x ∈ s.elems) ∧
    ((i < 0 ∨ (s.elems.length : Int) ≤ i) → s.get i = none) ∧
    (s.elems = [] → s.first = none ∧ s.last = none) ∧
    ((∀ x ∈ s.elems, p x = false) → s.find p = none) := by
  refine ⟨?_, ?_, ?_, ?_⟩
  · intro x hx
    unfold YTSetM.get at hx
    split at hx
    · exact (Option.some.injEq _ _ ▸ hx) ▸ List.get_mem _ _ _
    · exact absurd hx (by simp)
  · intro h
    unfold YTSetM.get
    rw [dif_neg]
    rintro ⟨h0, hlt⟩
    rcases h with h | h
    · exact absurd h0 (not_le.mpr h)
    · have : (i.toNat : Int) < (s.elems.length : Int) := by
        exact_mod_cast hlt
      rw [Int.toNat_of_nonneg h0] at this
      exact absurd h (not_le.mpr this)
  · intro h
    constructor
    · simp [YTSetM.first, h]
    · simp [YTSetM.last, h]
  · intro h
    simp only [YTSetM.find, List.find?_eq_none]
    intro x hx
    simp [h x hx]

/-- C8 witness: on a concrete set, a negative index yields none, the empty
set has no first element, and find with an unsatisfied predicate yields
none. -/
theorem C8_witness :
    (YTSetM.mk [1, 2, 3] : YTSetM Nat).get (-1) = none ∧
    (YTSetM.mk ([] : List Nat)).first = none ∧
    (YTSetM.mk [1, 2, 3] : YTSetM Nat).find (fun x => x > 7) = none :=
  ⟨(C8_ytset_access_total ⟨[1, 2, 3]⟩ (-1) (fun x => x > 7)).2.1
      (Or.inl (by norm_num)),
   ((C8_ytset_access_total (YTSetM.mk ([] : List Nat)) 0
      (fun _ => true)).2.2.1 rfl).1,
   (C8_ytset_access_total ⟨[1, 2, 3]⟩ (-1) (fun x => x > 7)).2.2.2
      (by decide)⟩

/-- C9: one call to next on the iterator model satisfies the declared
invariant: when done is true the value is null, and when done is false the
value is the next not-yet-traversed element of the collection, which is
removed from the remaining elements. -/
theorem C9_iterator_invariant {α : Type} (it : IteratorM α) :
    (it.next.2.done = true → it.next.2.value = none) ∧
    (it.next.2.done = false →
      ∃ x xs, it.remaining = x :: xs ∧ it.next.2.value = some x ∧
        it.next.1.remaining = xs) := by
  obtain ⟨rem⟩ := it
  cases rem with
  | nil =>
      refine ⟨fun _ => rfl, fun h => absurd h (by simp [IteratorM.next])⟩
  | cons x xs =>
      refine ⟨fun h => absurd h (by simp [IteratorM.next]), fun _ => ?_⟩
      exact ⟨x, xs, rfl, rfl, rfl⟩

/-- C9 witness: an exhausted iterator reports done with a null value, and
a nonempty iterator yields its head. -/
theorem C9_witness :
    (IteratorM.mk ([] : List Nat)).next.2.value = none ∧
    (IteratorM.mk [7, 8]).next.2.value = some 7 :=
  ⟨(C9_iterator_invariant (IteratorM.mk ([] : List Nat))).1 rfl,
   by
    obtain ⟨x, xs, hx, hv, _⟩ :=
      (C9_iterator_invariant (IteratorM.mk [7, 8])).2 rfl
    cases hx
    exact hv⟩

/-- C10: the derived RuleContext always contains the properties issue and
currentUser with the Issue and User entity types, whatever the
requirements record; and ActionContext is exactly RuleContext extended
with the two optional properties isSilentOperation and userInput, so every
RuleContext property is carried over unchanged. -/
theorem C10_context_invariants (rs : List (String × RequirementV))
    (t : TypeExpr) :
    CtxProp.mk "issue" false (.entity .issueTy) ∈ RuleContext rs ∧
    CtxProp.mk "currentUser" false (.entity .userTy) ∈ RuleContext rs ∧
    ActionContext rs t = RuleContext rs ++
      [⟨"isSilentOperation", true, .boolean⟩,
       ⟨"userInput", true, .fieldValue (FieldFromRequirement t)⟩] ∧
    (∀ p, p ∈ RuleContext rs → p ∈ ActionContext rs t) := by
  refine ⟨?_, ?_, rfl, ?_⟩
  · simp [RuleContext]
  · simp [RuleContext]
  · intro p hp
    exact List.mem_append_left _ hp

/-- C10 witness: on the empty requirements record with string user input,
the issue property of the rule context is carried into the action
context. -/
theorem C10_witness :
    CtxProp.mk "issue" false (.entity .issueTy) ∈
      ActionContext [] (.lit .stringType) :=
  (C10_context_invariants [] (.lit .stringType)).2.2.2 _
    (C10_context_invariants [] (.lit .stringType)).1

end YTTypes
